import Mathlib

/-
Verification of the db_update rating pipeline against its specification.

The embedding follows the two core modules:
  * nba_ratings_update/ratings.py — KenPom-style AdjEM team ratings
    (recency weighting, Jacobi-style opponent adjustment, shrinkage);
  * vorp_update/pipeline.py — possession normalization, BPM-style
    per-game impact model, season aggregation and VORP.

Python float arithmetic is modelled exactly over ℚ (the solver only adds,
multiplies and divides the inputs); the recency-weight function, which
uses math.pow with a real exponent, is modelled over ℝ.
-/

/- ===== nba_ratings_update/ratings.py ===== -/

/-- One completed game row, as selected from nba_game_results by
run_ratings_update (game_date is carried separately by the weight column). -/
structure Game where
  home_team : String
  away_team : String
  home_score : ℚ
  away_score : ℚ
deriving DecidableEq

/-- ADJEM_PARAMS["iterations"]. -/
def iterations : ℕ := 5

/-- ADJEM_PARAMS["min_games"]. -/
def min_games : ℕ := 5

/-- ADJEM_PARAMS["min_games_regression"]. -/
def min_games_regression : ℚ := 1/2

/-- LEAGUE_AVG_EFFICIENCY. -/
def LEAGUE_AVG_EFFICIENCY : ℚ := 110

/-- df["possessions"] = (df["home_score"] + df["away_score"]) / 2.0 —
note: no floor is applied on this column. -/
def possessions (g : Game) : ℚ := (g.home_score + g.away_score) / 2

/-- df["home_off_eff"] = df["home_score"] / df["possessions"] * 100. -/
def home_off_eff (g : Game) : ℚ := g.home_score / possessions g * 100

/-- df["away_off_eff"] = df["away_score"] / df["possessions"] * 100. -/
def away_off_eff (g : Game) : ℚ := g.away_score / possessions g * 100

/-- df["home_def_eff"] = df["away_score"] / df["possessions"] * 100. -/
def home_def_eff (g : Game) : ℚ := g.away_score / possessions g * 100

/-- df["away_def_eff"] = df["home_score"] / df["possessions"] * 100. -/
def away_def_eff (g : Game) : ℚ := g.home_score / possessions g * 100

/-- The function _weighted_mean(vals, weights): if the total weight is zero it
falls back to the unweighted mean (0.0 on an empty list), otherwise it is the
dot product divided by the total weight. -/
def weighted_mean (vals weights : List ℚ) : ℚ :=
  let tw := weights.sum
  if tw = 0 then (if vals.length = 0 then 0 else vals.sum / vals.length)
  else (List.zipWith (fun v w => v * w) vals weights).sum / tw

/-- A game row paired with its recency weight (the df["weight"] column).
When prediction_date is None the source assigns weight 1.0 to every row;
with a prediction date the weight is _game_weight, modelled over ℝ below —
the solver itself is plain field arithmetic on the weight column. -/
abbrev WGame := Game × ℚ

/-- off_vals for a team: home_off_eff of its home rows (in frame order)
followed by away_off_eff of its away rows. -/
def off_vals (gs : List WGame) (t : String) : List ℚ :=
  ((gs.filter (fun gw => gw.1.home_team == t)).map (fun gw => home_off_eff gw.1)) ++
  ((gs.filter (fun gw => gw.1.away_team == t)).map (fun gw => away_off_eff gw.1))

/-- off_w for a team: weights of its home rows followed by its away rows
(the source reuses this weight vector for the defensive mean as well). -/
def off_weights (gs : List WGame) (t : String) : List ℚ :=
  ((gs.filter (fun gw => gw.1.home_team == t)).map (fun gw => gw.2)) ++
  ((gs.filter (fun gw => gw.1.away_team == t)).map (fun gw => gw.2))

/-- def_vals for a team: home_def_eff of its home rows followed by
away_def_eff of its away rows. -/
def def_vals (gs : List WGame) (t : String) : List ℚ :=
  ((gs.filter (fun gw => gw.1.home_team == t)).map (fun gw => home_def_eff gw.1)) ++
  ((gs.filter (fun gw => gw.1.away_team == t)).map (fun gw => away_def_eff gw.1))

/-- ratings[team]["games"] = len(off_vals). -/
def gamesCount (gs : List WGame) (t : String) : ℕ := (off_vals gs t).length

/-- The mutable per-team entry of the ratings dict (adj_o, adj_d). -/
structure RState where
  adj_o : ℚ
  adj_d : ℚ
deriving DecidableEq

/-- Initialization: raw_o / raw_d are the recency-weighted raw means, with
fallback to LEAGUE_AVG_EFFICIENCY when the team has no games. -/
def initState (gs : List WGame) (t : String) : RState :=
  let ov := off_vals gs t
  let dv := def_vals gs t
  let ow := off_weights gs t
  ⟨if ov = [] then LEAGUE_AVG_EFFICIENCY else weighted_mean ov ow,
   if dv = [] then LEAGUE_AVG_EFFICIENCY else weighted_mean dv ow⟩

/-- The three per-round accumulator dicts ao_wsum, ad_wsum, wt. -/
structure Accum where
  ao : String → ℚ
  ad : String → ℚ
  wt : String → ℚ

/-- dict[k] += d. -/
def addTo (f : String → ℚ) (k : String) (d : ℚ) : String → ℚ :=
  fun t => if t = k then f t + d else f t

/-- One game's contribution inside an iteration round: expected efficiencies
from the opponents' current adj_d, adjusted values, weighted accumulation
(home first, then away, exactly as the four += statements in the source). -/
def accumGame (r : String → RState) (acc : Accum) (gw : WGame) : Accum :=
  let g := gw.1
  let w := gw.2
  let h := g.home_team
  let a := g.away_team
  let h_exp := LEAGUE_AVG_EFFICIENCY + ((r a).adj_d - LEAGUE_AVG_EFFICIENCY)
  let a_exp := LEAGUE_AVG_EFFICIENCY + ((r h).adj_d - LEAGUE_AVG_EFFICIENCY)
  let h_adj := home_off_eff g - h_exp + LEAGUE_AVG_EFFICIENCY
  let a_adj := away_off_eff g - a_exp + LEAGUE_AVG_EFFICIENCY
  { ao := addTo (addTo acc.ao h (h_adj * w)) a (a_adj * w)
    ad := addTo (addTo acc.ad h (a_adj * w)) a (h_adj * w)
    wt := addTo (addTo acc.wt h w) a w }

/-- One full pass over all games followed by the weighted-mean replacement;
teams with zero accumulated weight keep their previous rating (the source
guards the update with `if wt[t] > 0`). -/
def roundUpdate (gs : List WGame) (r : String → RState) : String → RState :=
  let acc := gs.foldl (accumGame r) ⟨fun _ => 0, fun _ => 0, fun _ => 0⟩
  fun t => if 0 < acc.wt t then ⟨acc.ao t / acc.wt t, acc.ad t / acc.wt t⟩ else r t

/-- The ratings dict after the fixed number of iteration rounds. -/
def iteratedState (gs : List WGame) : String → RState :=
  (roundUpdate gs)^[iterations] (initState gs)

/-- Python round(x, 2) modelled as round-to-nearest at two decimals (the
claims never exercise an exact half, where float round-half-even could
differ). -/
def round2 (q : ℚ) : ℚ := (round (q * 100) : ℤ) / 100

/-- One output row of calculate_ratings. -/
structure TeamRating where
  team : String
  adj_em : ℚ
  adj_o : ℚ
  adj_d : ℚ
  games : ℕ
deriving DecidableEq

/-- Small-sample shrinkage and the output record for one team: for
0 < games < min_games the rating is blended toward the league average with
blend = min_games_regression * (games / min_games). -/
def teamRecord (gs : List WGame) (t : String) : TeamRating :=
  let s := iteratedState gs t
  let g := gamesCount gs t
  let o :=
    if 0 < g ∧ g < min_games then
      let blend := min_games_regression * ((g : ℚ) / (min_games : ℚ))
      blend * s.adj_o + (1 - blend) * LEAGUE_AVG_EFFICIENCY
    else s.adj_o
  let d :=
    if 0 < g ∧ g < min_games then
      let blend := min_games_regression * ((g : ℚ) / (min_games : ℚ))
      blend * s.adj_d + (1 - blend) * LEAGUE_AVG_EFFICIENCY
    else s.adj_d
  { team := t, adj_em := round2 (o - d), adj_o := round2 o, adj_d := round2 d, games := g }

/-- Insert into an ascending duplicate-free list of team names. -/
def insertUniqueAsc (a : String) : List String → List String
  | [] => [a]
  | b :: bs => if a = b then b :: bs else if a < b then a :: b :: bs else b :: insertUniqueAsc a bs

/-- sorted(set(df["home_team"]) | set(df["away_team"])). -/
def teamsOf (gs : List WGame) : List String :=
  (gs.map (fun gw => gw.1.home_team) ++ gs.map (fun gw => gw.1.away_team)).foldr insertUniqueAsc []

/-- Stable insertion for the final descending sort on adj_em (Python's sorted
with reverse=True is stable, so equal keys keep the team-name order). -/
def insertByEmDesc (a : TeamRating) : List TeamRating → List TeamRating
  | [] => [a]
  | b :: bs => if b.adj_em ≤ a.adj_em then a :: b :: bs else b :: insertByEmDesc a bs

/-- sorted(results, key=adj_em, reverse=True), stable. -/
def sortByEmDesc (l : List TeamRating) : List TeamRating := l.foldr insertByEmDesc []

/-- calculate_ratings on games that already carry their weight column. -/
def calculateRatingsW (gs : List WGame) : List TeamRating :=
  sortByEmDesc ((teamsOf gs).map (teamRecord gs))

/-- calculate_ratings(games_df) with prediction_date=None: every row gets
weight 1.0 and the weighted pipeline runs. -/
def calculate_ratings (games : List Game) : List TeamRating :=
  calculateRatingsW (games.map (fun g => (g, 1)))

/-- CLAIM C1 counterexample: a degenerate game whose recorded scores are both
zero has possession denominator (0+0)/2 = 0 in the AdjEM solver — no floor
raises it to 1, so the claimed "possessions ≥ 1" recovery fails there. -/
theorem adjem_zero_score_game_possessions_not_floored :
    possessions ⟨"A", "B", 0, 0⟩ = 0 ∧ ¬ (1 ≤ possessions ⟨"A", "B", 0, 0⟩) := by
  constructor
  · norm_num [possessions]
  · norm_num [possessions]

/-- CLAIM C1 (amended): the AdjEM solver computes possessions as
(home_score + away_score) / 2 with no floor; the per-game efficiency
denominator is positive whenever the two recorded scores have a positive
sum, and only the both-zero degenerate game makes it vanish. -/
theorem adjem_possessions_positive_of_scores (g : Game)
    (h : 0 < g.home_score + g.away_score) :
    possessions g = (g.home_score + g.away_score) / 2 ∧ 0 < possessions g := by
  refine ⟨rfl, ?_⟩
  unfold possessions
  positivity

/-- Witness for adjem_possessions_positive_of_scores at the 110–100 game. -/
theorem adjem_possessions_positive_witness :
    possessions ⟨"A", "B", 110, 100⟩ = (110 + 100) / 2 ∧ 0 < possessions ⟨"A", "B", 110, 100⟩ :=
  adjem_possessions_positive_of_scores ⟨"A", "B", 110, 100⟩ (by norm_num)

/- ===== Two-team toy league (spec §8 scenario) ===== -/

/-- Two completed games: A beats B 110–100 and 105–95, both with A at home. -/
def toyGames : List Game := [⟨"A", "B", 110, 100⟩, ⟨"A", "B", 105, 95⟩]

/-- The toy games with the weight column of a default run (prediction_date
None, so every row gets weight 1.0). -/
def toyW : List WGame := toyGames.map (fun g => (g, 1))

/-- One iteration round maps the raw-mean state of the toy league to the
all-league-average state. -/
lemma c2_round_to_avg (r : String → RState) (hA : r "A" = ⟨4405/42, 3995/42⟩)
    (hB : r "B" = ⟨3995/42, 4405/42⟩) :
    roundUpdate toyW r "A" = ⟨110, 110⟩ ∧ roundUpdate toyW r "B" = ⟨110, 110⟩ := by
  simp only [toyW, toyGames, roundUpdate, List.map, List.foldl, accumGame, addTo,
    home_off_eff, away_off_eff, possessions, hA, hB, String.reduceEq, reduceIte,
    RState.mk.injEq]
  norm_num [LEAGUE_AVG_EFFICIENCY]

/-- One iteration round maps the all-league-average state of the toy league
back to the raw-mean state: the two-team iteration oscillates with period 2. -/
lemma c2_round_to_raw (r : String → RState) (hA : r "A" = ⟨110, 110⟩)
    (hB : r "B" = ⟨110, 110⟩) :
    roundUpdate toyW r "A" = ⟨4405/42, 3995/42⟩ ∧ roundUpdate toyW r "B" = ⟨3995/42, 4405/42⟩ := by
  simp only [toyW, toyGames, roundUpdate, List.map, List.foldl, accumGame, addTo,
    home_off_eff, away_off_eff, possessions, hA, hB, String.reduceEq, reduceIte,
    RState.mk.injEq]
  norm_num [LEAGUE_AVG_EFFICIENCY]

/-- The initial (recency-weighted raw mean) state of the toy league. -/
lemma c2_init : initState toyW "A" = ⟨4405/42, 3995/42⟩ ∧
    initState toyW "B" = ⟨3995/42, 4405/42⟩ := by
  constructor <;>
  · simp only [toyW, toyGames, initState, off_vals, def_vals, off_weights, weighted_mean,
      List.map, List.filter, List.append_eq, List.append, String.reduceBEq,
      home_off_eff, away_off_eff, home_def_eff, away_def_eff, possessions,
      List.zipWith, List.sum_cons, List.sum_nil, List.length, RState.mk.injEq]
    norm_num [List.cons_ne_nil, LEAGUE_AVG_EFFICIENCY]

/-- After the default five rounds (an odd number), the oscillating toy-league
iteration lands on the all-league-average state. -/
lemma c2_iterated : iteratedState toyW "A" = ⟨110, 110⟩ ∧
    iteratedState toyW "B" = ⟨110, 110⟩ := by
  have h0 := c2_init
  have h1 := c2_round_to_avg (initState toyW) h0.1 h0.2
  have h2 := c2_round_to_raw _ h1.1 h1.2
  have h3 := c2_round_to_avg _ h2.1 h2.2
  have h4 := c2_round_to_raw _ h3.1 h3.2
  have h5 := c2_round_to_avg _ h4.1 h4.2
  have hit : iteratedState toyW =
      roundUpdate toyW (roundUpdate toyW (roundUpdate toyW (roundUpdate toyW
        (roundUpdate toyW (initState toyW))))) := by
    simp only [iteratedState, iterations, Function.iterate_succ_apply',
      Function.iterate_zero_apply]
  rw [hit]
  exact ⟨h5.1, h5.2⟩

/-- Games played by each toy team. -/
lemma c2_games : gamesCount toyW "A" = 2 ∧ gamesCount toyW "B" = 2 := by
  constructor <;>
    simp only [toyW, toyGames, gamesCount, off_vals, List.map, List.filter,
      String.reduceBEq, List.append_eq, List.append, List.length]

/-- The toy-league output rows: both teams end exactly at the league average
(shrinkage blends 110 with 110), so adj_em is 0 for both. -/
lemma c2_records : teamRecord toyW "A" = ⟨"A", 0, 110, 110, 2⟩ ∧
    teamRecord toyW "B" = ⟨"B", 0, 110, 110, 2⟩ := by
  have h := c2_iterated
  have hg := c2_games
  constructor <;>
  · simp only [teamRecord, h.1, h.2, hg.1, hg.2, min_games, min_games_regression,
      LEAGUE_AVG_EFFICIENCY, TeamRating.mk.injEq]
    norm_num [round2, round_eq]

/-- Full evaluation of calculate_ratings on the toy league. -/
lemma c2_result : calculate_ratings toyGames =
    [⟨"A", 0, 110, 110, 2⟩, ⟨"B", 0, 110, 110, 2⟩] := by
  have h := c2_records
  have ht : teamsOf toyW = ["A", "B"] := by
    simp only [toyW, toyGames, teamsOf, List.map, List.append_eq, List.append,
      List.foldr, insertUniqueAsc, String.reduceEq, String.reduceLT, reduceIte]
  have : calculate_ratings toyGames = calculateRatingsW toyW := rfl
  rw [this]
  simp only [calculateRatingsW, ht, List.map, h.1, h.2, sortByEmDesc, List.foldr,
    insertByEmDesc, le_refl, reduceIte]

/-- CLAIM C2 counterexample: on the two-game toy league with default
parameters, A's adjusted offensive rating is NOT strictly greater than B's
and A's net rating is not strictly positive — the five (an odd number of)
Jacobi rounds leave both teams exactly at the league average. -/
theorem two_team_toy_league_counterexample :
    ¬ (∀ ra ∈ calculate_ratings toyGames, ∀ rb ∈ calculate_ratings toyGames,
        ra.team = "A" → rb.team = "B" →
        rb.adj_o < ra.adj_o ∧ 0 < ra.adj_em ∧ rb.adj_em < 0) := by
  rw [c2_result]
  intro h
  have hc := h ⟨"A", 0, 110, 110, 2⟩ (by simp) ⟨"B", 0, 110, 110, 2⟩ (by simp) rfl rfl
  exact absurd hc.1 (by norm_num)

/-- CLAIM C2 (amended): on the toy input, calculate_ratings returns both
teams with adjusted offensive and defensive ratings exactly 110.0 and net
rating exactly 0 (A's rating equals B's rather than exceeding it), and the
two net ratings sum to exactly zero. -/
theorem two_team_toy_league_amended :
    calculate_ratings toyGames = [⟨"A", 0, 110, 110, 2⟩, ⟨"B", 0, 110, 110, 2⟩] ∧
    ((calculate_ratings toyGames).map TeamRating.adj_em).sum = 0 := by
  refine ⟨c2_result, ?_⟩
  rw [c2_result]
  norm_num

/- ===== Zero-games team (spec §4.2 edge case / §8 shrinkage boundary) ===== -/

/-- A team that appears in no game row has empty home and away filters. -/
lemma c6_filters {gs : List WGame} {t : String}
    (h : ∀ gw ∈ gs, gw.1.home_team ≠ t ∧ gw.1.away_team ≠ t) :
    gs.filter (fun gw => gw.1.home_team == t) = [] ∧
    gs.filter (fun gw => gw.1.away_team == t) = [] := by
  constructor <;>
  · rw [List.filter_eq_nil_iff]
    intro gw hgw
    simp [(h gw hgw).1, (h gw hgw).2]

/-- A round's accumulators never touch a team that plays in no game. -/
lemma c6_foldl (r : String → RState) (gs : List WGame) (t : String)
    (h : ∀ gw ∈ gs, gw.1.home_team ≠ t ∧ gw.1.away_team ≠ t) (acc : Accum) :
    (gs.foldl (accumGame r) acc).ao t = acc.ao t ∧
    (gs.foldl (accumGame r) acc).ad t = acc.ad t ∧
    (gs.foldl (accumGame r) acc).wt t = acc.wt t := by
  induction gs generalizing acc with
  | nil => exact ⟨rfl, rfl, rfl⟩
  | cons gw gs ih =>
    have hgw := h gw (List.mem_cons_self _ _)
    have hrest : ∀ x ∈ gs, x.1.home_team ≠ t ∧ x.1.away_team ≠ t :=
      fun x hx => h x (List.mem_cons_of_mem _ hx)
    have hih := ih hrest (accumGame r acc gw)
    rw [List.foldl_cons]
    rw [hih.1, hih.2.1, hih.2.2]
    refine ⟨?_, ?_, ?_⟩ <;> simp [accumGame, addTo, Ne.symm hgw.1, Ne.symm hgw.2]

/-- A team that plays in no game is left untouched by an iteration round. -/
lemma c6_round (gs : List WGame) (t : String)
    (h : ∀ gw ∈ gs, gw.1.home_team ≠ t ∧ gw.1.away_team ≠ t)
    (r : String → RState) : roundUpdate gs r t = r t := by
  have hacc := c6_foldl r gs t h ⟨fun _ => 0, fun _ => 0, fun _ => 0⟩
  simp only [roundUpdate]
  rw [hacc.2.2]
  simp

/-- A team that plays in no game keeps its initial rating through every
iteration round. -/
lemma c6_iterate (gs : List WGame) (t : String)
    (h : ∀ gw ∈ gs, gw.1.home_team ≠ t ∧ gw.1.away_team ≠ t) :
    ∀ (n : ℕ) (s : String → RState), ((roundUpdate gs)^[n] s) t = s t := by
  intro n
  induction n with
  | zero => intro s; rfl
  | succ n ih =>
    intro s
    rw [Function.iterate_succ_apply', c6_round gs t h _]
    exact ih s

/-- CLAIM C6: a team with zero games gets adjusted offensive and defensive
ratings exactly equal to the league average (110.0) and net rating 0 (the
computation falls back to the league average at initialization, no round or
shrinkage ever changes it, and no error is possible). -/
theorem zero_games_team_league_average (gs : List WGame) (t : String)
    (h : ∀ gw ∈ gs, gw.1.home_team ≠ t ∧ gw.1.away_team ≠ t) :
    teamRecord gs t = ⟨t, 0, 110, 110, 0⟩ := by
  have hf := c6_filters h
  have hov : off_vals gs t = [] := by simp [off_vals, hf.1, hf.2]
  have hdv : def_vals gs t = [] := by simp [def_vals, hf.1, hf.2]
  have hi : initState gs t = ⟨110, 110⟩ := by
    simp [initState, hov, hdv, LEAGUE_AVG_EFFICIENCY]
  have hit : iteratedState gs t = ⟨110, 110⟩ := by
    rw [iteratedState, c6_iterate gs t h iterations (initState gs)]
    exact hi
  have hg : gamesCount gs t = 0 := by simp [gamesCount, hov]
  simp only [teamRecord, hit, hg]
  norm_num [round2, round_eq, TeamRating.mk.injEq]

/-- Witness for zero_games_team_league_average: team "C" in a one-game league
between "A" and "B". -/
theorem zero_games_team_league_average_witness :
    teamRecord [((⟨"A", "B", 100, 90⟩ : Game), 1)] "C" = ⟨"C", 0, 110, 110, 0⟩ :=
  zero_games_team_league_average [((⟨"A", "B", 100, 90⟩ : Game), 1)] "C" (by decide)

/- ===== vorp_update/pipeline.py — possession normalizer ===== -/

/-- One row of nba_player_game_stats joined with nba_players, with the
season column already derived (_game_date_to_season) and missing stat
fields already coerced to zero (fillna(0) in _load_game_data). -/
structure PlayerGameRow where
  player_id : String
  player_name : String
  team_abv : String
  game_id : String
  season : String
  position : String
  minutes_played : ℚ
  points : ℚ
  rebounds : ℚ
  assists : ℚ
  steals : ℚ
  blocks : ℚ
  turnovers : ℚ
  offensive_rebounds : ℚ
  defensive_rebounds : ℚ
  field_goal_attempts : ℚ
  field_goals_made : ℚ
  free_throw_attempts : ℚ
  free_throws_made : ℚ
  three_point_fg_made : ℚ
  three_point_fg_attempts : ℚ
  personal_fouls : ℚ
  plus_minus : ℚ
deriving DecidableEq

/-- df = df[df["minutes_played"].notna() & (df["minutes_played"] > 0)]. -/
def minutesFilter (rows : List PlayerGameRow) : List PlayerGameRow :=
  rows.filter (fun r => decide (0 < r.minutes_played))

/-- One TeamGameAggregate row of the tg frame. -/
structure TeamGameAggregate where
  team_abv : String
  game_id : String
  team_fga : ℚ
  team_fta : ℚ
  team_tov : ℚ
  team_orb : ℚ
  team_min : ℚ
  team_poss : ℚ
deriving DecidableEq

/-- The groupby keys of df.groupby(["team_abv", "game_id"]) (pandas sorts
group keys; key order is immaterial to every property proved here). -/
def teamGameKeys (rows : List PlayerGameRow) : List (String × String) :=
  (rows.map (fun r => (r.team_abv, r.game_id))).dedup

/-- One aggregated (team, game) row: summed counting stats, then
team_poss = (fga + 0.44 fta + tov − orb).clip(lower=1) and
team_min clipped at 1. -/
def aggregateFor (rows : List PlayerGameRow) (k : String × String) : TeamGameAggregate :=
  let rs := rows.filter (fun r => r.team_abv == k.1 && r.game_id == k.2)
  let fga := (rs.map (fun r => r.field_goal_attempts)).sum
  let fta := (rs.map (fun r => r.free_throw_attempts)).sum
  let tov := (rs.map (fun r => r.turnovers)).sum
  let orb := (rs.map (fun r => r.offensive_rebounds)).sum
  let mins := (rs.map (fun r => r.minutes_played)).sum
  { team_abv := k.1, game_id := k.2, team_fga := fga, team_fta := fta,
    team_tov := tov, team_orb := orb,
    team_min := max mins 1,
    team_poss := max (fga + 44/100 * fta + tov - orb) 1 }

/-- The tg frame of _load_game_data. -/
def teamGameAggregates (rows : List PlayerGameRow) : List TeamGameAggregate :=
  (teamGameKeys (minutesFilter rows)).map (aggregateFor (minutesFilter rows))

/-- CLAIM C7: every TeamGameAggregate row carries
team_poss = max(fga + 0.44 fta + tov − orb, 1), hence team_poss ≥ 1 for
arbitrary (even all-zero) input counts. -/
theorem team_possessions_floor (rows : List PlayerGameRow) :
    ∀ a ∈ teamGameAggregates rows,
      a.team_poss = max (a.team_fga + 44/100 * a.team_fta + a.team_tov - a.team_orb) 1 ∧
      1 ≤ a.team_poss := by
  intro a ha
  obtain ⟨k, _, rfl⟩ := List.mem_map.mp ha
  exact ⟨rfl, le_max_right _ _⟩

/-- An adversarial all-zero input row (1 minute played so the row survives
the minutes filter). -/
def c7row : PlayerGameRow :=
  ⟨"p1", "Zero Player", "BOS", "G1", "2024-25", "C", 1,
   0, 0, 0, 0, 0, 0, 0, 0, 0, 0, 0, 0, 0, 0, 0, 0⟩

/-- The aggregate row the normalizer produces for c7row. -/
def c7agg : TeamGameAggregate := ⟨"BOS", "G1", 0, 0, 0, 0, 1, 1⟩

/-- Witness for team_possessions_floor on the all-zero input. -/
theorem team_possessions_floor_witness :
    c7agg ∈ teamGameAggregates [c7row] ∧ 1 ≤ c7agg.team_poss := by
  have hm : c7agg ∈ teamGameAggregates [c7row] := by
    simp only [teamGameAggregates, teamGameKeys, minutesFilter, aggregateFor, c7row, c7agg,
      List.filter, List.map, List.dedup_cons_of_not_mem, List.not_mem_nil, List.dedup_nil,
      not_false_iff, String.reduceBEq, Bool.and_self, List.mem_singleton,
      TeamGameAggregate.mk.injEq]
    norm_num [max_def]
  exact ⟨hm, (team_possessions_floor [c7row] c7agg hm).2⟩

/- ===== vorp_update/pipeline.py — season aggregation and VORP ===== -/

/-- REPLACEMENT_LEVEL = -2.0. -/
def REPLACEMENT_LEVEL : ℚ := -2

/-- FULL_SEASON_GAMES = 82. -/
def FULL_SEASON_GAMES : ℚ := 82

/-- One player-season row of _calculate_vorp's merged frame (the ps row
joined with its team-season row; the join key always matches because both
frames are grouped from the same data). -/
structure PlayerSeasonAgg where
  player_id : String
  player_name : String
  team_abv : String
  season : String
  games_played : ℕ
  total_minutes : ℚ
  avg_bpm : ℚ
  team_games : ℕ
  team_total_minutes : ℚ
deriving DecidableEq

/-- df["pct_minutes"] = (total / (team_total / 5)).clip(upper=1.0). -/
def pct_minutes (r : PlayerSeasonAgg) : ℚ :=
  min (r.total_minutes / (r.team_total_minutes / 5)) 1

/-- df["vorp"] = (avg_bpm − REPLACEMENT_LEVEL) × pct_minutes ×
(team_games / FULL_SEASON_GAMES). -/
def vorp (r : PlayerSeasonAgg) : ℚ :=
  (r.avg_bpm - REPLACEMENT_LEVEL) * pct_minutes r * ((r.team_games : ℚ) / FULL_SEASON_GAMES)

/-- CLAIM C8: playing-time share is the capped quotient and never exceeds
1.0, whatever the raw minutes are. -/
theorem pct_minutes_capped (r : PlayerSeasonAgg) :
    pct_minutes r = min (r.total_minutes / (r.team_total_minutes / 5)) 1 ∧
    pct_minutes r ≤ 1 :=
  ⟨rfl, min_le_right _ _⟩

/-- CLAIM C9: a player whose (defined) average impact equals the replacement
level has VORP exactly 0, for every playing-time share and games count. -/
theorem replacement_level_zero_vorp (r : PlayerSeasonAgg)
    (h : r.avg_bpm = REPLACEMENT_LEVEL) : vorp r = 0 := by
  simp [vorp, h]

/-- A replacement-level player-season row with nontrivial share and games. -/
def c9row : PlayerSeasonAgg := ⟨"p2", "Replacement Guy", "BOS", "2024-25", 40, 800, -2, 50, 9600⟩

/-- Witness for replacement_level_zero_vorp. -/
theorem replacement_level_zero_vorp_witness :
    c9row.avg_bpm = REPLACEMENT_LEVEL ∧ vorp c9row = 0 :=
  ⟨by norm_num [c9row, REPLACEMENT_LEVEL],
   replacement_level_zero_vorp c9row (by norm_num [c9row, REPLACEMENT_LEVEL])⟩

/- ===== vorp_update/pipeline.py — BPM model (_apply_bpm) ===== -/

/-- The coefficient artifact (bpm_coefficients.json "coefficients"): a
key-value document, modelled as an association list. -/
def coeffLookup (cs : List (String × ℚ)) (k : String) : Option ℚ :=
  (cs.find? (fun p => p.1 == k)).map (fun p => p.2)

/-- The league_averages block of the artifact (per-100 rates). -/
structure LeagueAverages where
  pts_100 : ℚ
  fga_100 : ℚ
  fta_100 : ℚ
  ast_100 : ℚ
  orb_100 : ℚ
  drb_100 : ℚ
  stl_100 : ℚ
  blk_100 : ℚ
  tov_100 : ℚ
  pf_100 : ℚ
  tpm_100 : ℚ
deriving DecidableEq

/-- A player-game row after per-100 normalization (the *_100 columns of
_load_game_data) plus the position label. -/
structure BpmRow where
  position : String
  pts_100 : ℚ
  fga_100 : ℚ
  fta_100 : ℚ
  ast_100 : ℚ
  orb_100 : ℚ
  drb_100 : ℚ
  stl_100 : ℚ
  blk_100 : ℚ
  tov_100 : ℚ
  pf_100 : ℚ
  tpm_100 : ℚ
deriving DecidableEq

/-- One step of the position-offset loop: if f"pos_{pos}" is in the
coefficient set, rows whose position equals pos get the offset added. -/
def posStep (cs : List (String × ℚ)) (p : String) (acc : ℚ) (pos : String) : ℚ :=
  match coeffLookup cs ("pos_" ++ pos) with
  | some c => if p = pos then acc + c else acc
  | none => acc

/-- The total position-offset contribution of the loop
`for pos in ["PG", "SG", "PF", "C", "G"]` — note "SF" is not in the list. -/
def posOffset (cs : List (String × ℚ)) (p : String) : ℚ :=
  (["PG", "SG", "PF", "C", "G"]).foldl (posStep cs p) 0

/-- The per-game BPM estimate before the team-context term: intercept plus
coefficient-weighted features (a feature absent from the artifact
contributes zero) plus the position offset. The source indexes
coefficients["intercept"] directly, which raises KeyError when the artifact
has no intercept — that error path is the none case here. -/
def game_bpm_raw (cs : List (String × ℚ)) (lg : LeagueAverages) (r : BpmRow) :
    Option ℚ :=
  let lg_tsa := lg.fga_100 + 44/100 * lg.fta_100
  let lg_ts_pct := if 0 < lg_tsa then lg.pts_100 / (2 * lg_tsa) else 56/100
  let p_tsa := r.fga_100 + 44/100 * r.fta_100
  let expected_pts := 2 * p_tsa * lg_ts_pct
  let scoring_eff := r.pts_100 - expected_pts
  let volume_dev := p_tsa - lg_tsa
  let ast_dev := r.ast_100 - lg.ast_100
  let is_big : ℚ := if r.position = "C" ∨ r.position = "PF" then 1 else 0
  let feats : List (String × ℚ) :=
    [("scoring_eff", scoring_eff), ("volume_dev", volume_dev), ("ast_dev", ast_dev),
     ("orb_dev", r.orb_100 - lg.orb_100), ("drb_dev", r.drb_100 - lg.drb_100),
     ("stl_dev", r.stl_100 - lg.stl_100), ("blk_dev", r.blk_100 - lg.blk_100),
     ("tov_dev", r.tov_100 - lg.tov_100), ("pf_dev", r.pf_100 - lg.pf_100),
     ("tpm_dev", r.tpm_100 - lg.tpm_100),
     ("ast_x_big", ast_dev * is_big), ("scoring_x_vol", scoring_eff * max volume_dev 0)]
  match coeffLookup cs "intercept" with
  | none => none
  | some intercept =>
    some (feats.foldl (fun acc kv =>
      match coeffLookup cs kv.1 with
      | some c => acc + c * kv.2
      | none => acc) intercept
    + posOffset cs r.position)

/-- df["game_bpm"] = game_bpm_raw + coefficients.get("team_net_rtg", 0) ×
team_net_rtg (dict.get with default 0 never raises, unlike the intercept
access). -/
def game_bpm (cs : List (String × ℚ)) (lg : LeagueAverages) (r : BpmRow)
    (team_net_rtg : ℚ) : Option ℚ :=
  (game_bpm_raw cs lg r).map
    (fun b => b + (coeffLookup cs "team_net_rtg").getD 0 * team_net_rtg)

/-- A position not matched by a loop step contributes nothing. -/
lemma posStep_ne {cs : List (String × ℚ)} {acc : ℚ} {p pos : String} (h : p ≠ pos) :
    posStep cs p acc pos = acc := by
  unfold posStep
  cases coeffLookup cs ("pos_" ++ pos) <;> simp [h]

/-- The loop step matching the row's own position adds the looked-up offset
(zero when absent). -/
lemma posStep_self {cs : List (String × ℚ)} {acc : ℚ} {p : String} :
    posStep cs p acc p = acc + (coeffLookup cs ("pos_" ++ p)).getD 0 := by
  unfold posStep
  cases coeffLookup cs ("pos_" ++ p) <;> simp

/-- A coefficient set holding an intercept (so _apply_bpm runs without a
KeyError) and an SF offset; every feature key is absent and so contributes
zero. -/
def c3coeffs : List (String × ℚ) := [("intercept", 1), ("pos_SF", 3)]

/-- League averages all zero (so the zero row sits exactly at average). -/
def c3lg : LeagueAverages := ⟨0, 0, 0, 0, 0, 0, 0, 0, 0, 0, 0⟩

/-- An SF row with all-zero per-100 stats. -/
def c3row : BpmRow := ⟨"SF", 0, 0, 0, 0, 0, 0, 0, 0, 0, 0, 0⟩

/-- CLAIM C3 counterexample: the coefficient set contains a (nonzero) offset
for the label "SF", yet the offset contribution for an SF row is 0 and the
whole impact score is just the bare intercept 1, not 1 + 3 — the loop only
ever looks up PG, SG, PF, C, G. -/
theorem position_offset_sf_counterexample :
    coeffLookup c3coeffs "pos_SF" = some 3 ∧ (3:ℚ) ≠ 0 ∧
    posOffset c3coeffs "SF" = 0 ∧ game_bpm_raw c3coeffs c3lg c3row = some 1 := by
  refine ⟨by simp [coeffLookup, c3coeffs], by norm_num, ?_, ?_⟩
  · simp only [posOffset, posStep, coeffLookup, c3coeffs, List.foldl, List.find?,
      String.reduceAppend, String.reduceBEq, Option.map]
  · simp only [game_bpm_raw, posOffset, posStep, coeffLookup, c3coeffs, c3lg, c3row,
      List.foldl, List.find?, String.reduceAppend, String.reduceBEq, String.reduceEq,
      Option.map, Option.getD]
    norm_num

/-- CLAIM C3 (amended): the per-game score's position contribution equals the
looked-up offset (zero when absent) for the labels PG, SG, PF, C, G that the
loop enumerates, and is identically zero for every other label (such as SF),
even when a matching offset is present in the coefficient set. -/
theorem position_offset_characterization (cs : List (String × ℚ)) (p : String) :
    posOffset cs p =
      if p ∈ (["PG", "SG", "PF", "C", "G"] : List String)
      then (coeffLookup cs ("pos_" ++ p)).getD 0 else 0 := by
  have hfold : posOffset cs p =
      posStep cs p (posStep cs p (posStep cs p (posStep cs p (posStep cs p 0 "PG")
        "SG") "PF") "C") "G" := rfl
  by_cases h1 : p = "PG"
  · subst h1
    rw [hfold, posStep_self, posStep_ne (by decide : ("PG":String) ≠ "SG"),
      posStep_ne (by decide : ("PG":String) ≠ "PF"),
      posStep_ne (by decide : ("PG":String) ≠ "C"),
      posStep_ne (by decide : ("PG":String) ≠ "G")]
    simp
  by_cases h2 : p = "SG"
  · subst h2
    rw [hfold, posStep_ne (by decide : ("SG":String) ≠ "PG"), posStep_self,
      posStep_ne (by decide : ("SG":String) ≠ "PF"),
      posStep_ne (by decide : ("SG":String) ≠ "C"),
      posStep_ne (by decide : ("SG":String) ≠ "G")]
    simp
  by_cases h3 : p = "PF"
  · subst h3
    rw [hfold, posStep_ne (by decide : ("PF":String) ≠ "PG"),
      posStep_ne (by decide : ("PF":String) ≠ "SG"), posStep_self,
      posStep_ne (by decide : ("PF":String) ≠ "C"),
      posStep_ne (by decide : ("PF":String) ≠ "G")]
    simp
  by_cases h4 : p = "C"
  · subst h4
    rw [hfold, posStep_ne (by decide : ("C":String) ≠ "PG"),
      posStep_ne (by decide : ("C":String) ≠ "SG"),
      posStep_ne (by decide : ("C":String) ≠ "PF"), posStep_self,
      posStep_ne (by decide : ("C":String) ≠ "G")]
    simp
  by_cases h5 : p = "G"
  · subst h5
    rw [hfold, posStep_ne (by decide : ("G":String) ≠ "PG"),
      posStep_ne (by decide : ("G":String) ≠ "SG"),
      posStep_ne (by decide : ("G":String) ≠ "PF"),
      posStep_ne (by decide : ("G":String) ≠ "C"), posStep_self]
    simp
  · rw [hfold, posStep_ne h1, posStep_ne h2, posStep_ne h3, posStep_ne h4,
      posStep_ne h5]
    simp [h1, h2, h3, h4, h5]

/- ===== Upsert sinks and idempotent re-runs ===== -/

/-- One row of the frame entering _aggregate: identifiers, season, minutes
and the per-game impact score produced by _apply_bpm. -/
structure ScoredRow where
  player_id : String
  player_name : String
  team_abv : String
  season : String
  game_id : String
  minutes_played : ℚ
  game_bpm : ℚ
deriving DecidableEq

/-- Group keys of df.groupby(["player_id", "player_name", "team_abv",
"season"]). -/
def psKeys (rows : List ScoredRow) : List (String × String × String × String) :=
  (rows.map (fun r => (r.player_id, r.player_name, r.team_abv, r.season))).dedup

/-- One aggregated player-season row, already merged with its team-season row
(games_played, total/avg from the player's rows; team_games as distinct game
count and team_total_minutes from the team's rows — np.average with minute
weights is the dot product over the weight sum). -/
def psAggregate (rows : List ScoredRow) (k : String × String × String × String) :
    PlayerSeasonAgg :=
  let rs := rows.filter (fun r =>
    r.player_id == k.1 && r.player_name == k.2.1 && r.team_abv == k.2.2.1 &&
    r.season == k.2.2.2)
  let ts := rows.filter (fun r => r.team_abv == k.2.2.1 && r.season == k.2.2.2)
  { player_id := k.1, player_name := k.2.1, team_abv := k.2.2.1, season := k.2.2.2,
    games_played := rs.length,
    total_minutes := (rs.map (fun r => r.minutes_played)).sum,
    avg_bpm := (rs.map (fun r => r.game_bpm * r.minutes_played)).sum /
      (rs.map (fun r => r.minutes_played)).sum,
    team_games := ((ts.map (fun r => r.game_id)).dedup).length,
    team_total_minutes := (ts.map (fun r => r.minutes_played)).sum }

/-- The merged frame of _calculate_vorp. -/
def vorpRows (rows : List ScoredRow) : List PlayerSeasonAgg :=
  (psKeys rows).map (psAggregate rows)

/-- Python round(x, 1) (see round2 for the tie caveat). -/
def round1 (q : ℚ) : ℚ := (round (q * 10) : ℤ) / 10

/-- Python round(x, 4) (see round2 for the tie caveat). -/
def round4 (q : ℚ) : ℚ := (round (q * 10000) : ℤ) / 10000

/-- The non-key columns of one player_season_vorp upsert row, rounded as in
_write_to_neon; model_version is constant and the calculated_at timestamp is
outside the claim's "keys and numeric values". -/
structure VorpPayload where
  player_name : String
  games_played : ℕ
  total_minutes : ℚ
  pct_minutes : ℚ
  team_games : ℕ
  estimated_bpm : ℚ
  vorp : ℚ
deriving DecidableEq

/-- The record set _write_to_neon upserts, keyed by
(player_id, team, season). -/
def vorpRecords (rows : List ScoredRow) :
    List ((String × String × String) × VorpPayload) :=
  (vorpRows rows).map (fun r =>
    ((r.player_id, r.team_abv, r.season),
     ⟨r.player_name, r.games_played, round1 r.total_minutes, round4 (pct_minutes r),
      r.team_games, round2 r.avg_bpm, round2 (vorp r)⟩))

/-- SEASON = "2025-26" in nba_ratings_update/pipeline.py. -/
def SEASON : String := "2025-26"

/-- The non-key columns of one nba_team_ratings upsert row (last_game_date
and calculated_at are outside the claim's "keys and numeric values"). -/
structure RatingsPayload where
  adj_em : ℚ
  adj_off : ℚ
  adj_def : ℚ
  games : ℕ
deriving DecidableEq

/-- The record set run_ratings_update upserts, keyed by (team, season). -/
def ratingsRecords (games : List Game) : List ((String × String) × RatingsPayload) :=
  (calculate_ratings games).map (fun r =>
    ((r.team, SEASON), ⟨r.adj_em, r.adj_o, r.adj_d, r.games⟩))

/-- INSERT ... ON CONFLICT (key) DO UPDATE for a single row: the sink keeps
exactly one row per key, overwritten with the incoming values. -/
def upsertOne {K V : Type} [DecidableEq K] (tbl : K → Option V) (kv : K × V) :
    K → Option V :=
  fun k => if kv.1 = k then some kv.2 else tbl k

/-- Upserting a record list row by row (the executemany loop). -/
def upsertAll {K V : Type} [DecidableEq K] (rs : List (K × V)) (tbl : K → Option V) :
    K → Option V :=
  rs.foldl upsertOne tbl

/-- The last value a record list writes at a key, if any. -/
def lastWrite {K V : Type} [DecidableEq K] (rs : List (K × V)) (k : K) : Option V :=
  rs.foldl (fun a kv => if kv.1 = k then some kv.2 else a) none

/-- Helper: (some v).or o = some v, in rewritable form. -/
lemma some_or_eq {V : Type} (v : V) (o : Option V) : (some v).or o = some v := rfl

/-- Restarting lastWrite's fold from an arbitrary accumulator. -/
lemma lastWrite_foldl {K V : Type} [DecidableEq K] (rs : List (K × V)) (k : K)
    (acc : Option V) :
    rs.foldl (fun a kv => if kv.1 = k then some kv.2 else a) acc
      = (rs.foldl (fun a kv => if kv.1 = k then some kv.2 else a) none).or acc := by
  induction rs generalizing acc with
  | nil => rfl
  | cons kv rs ih =>
    simp only [List.foldl_cons]
    by_cases h : kv.1 = k
    · rw [if_pos h, if_pos h, ih (some kv.2), Option.or_assoc, some_or_eq]
    · rw [if_neg h, if_neg h, ih acc]

/-- The sink state after an upsert run: at each key, the run's last write if
there is one, otherwise whatever was there before. -/
lemma upsertAll_apply {K V : Type} [DecidableEq K] (rs : List (K × V))
    (tbl : K → Option V) (k : K) :
    upsertAll rs tbl k = (lastWrite rs k).or (tbl k) := by
  induction rs generalizing tbl with
  | nil => rfl
  | cons kv rs ih =>
    have hstep : upsertAll (kv :: rs) tbl k = upsertAll rs (upsertOne tbl kv) k := rfl
    have hone : ∀ t : K → Option V,
        upsertOne t kv k = if kv.1 = k then some kv.2 else t k := fun t => rfl
    have hL : lastWrite (kv :: rs) k
        = (lastWrite rs k).or (if kv.1 = k then some kv.2 else none) := by
      rw [lastWrite, List.foldl_cons, lastWrite_foldl rs k]
      rfl
    rw [hstep, ih (upsertOne tbl kv), hL, hone]
    by_cases h : kv.1 = k
    · rw [if_pos h, if_pos h, Option.or_assoc, some_or_eq]
    · rw [if_neg h, if_neg h, Option.or_assoc, Option.none_or]

/-- Upserting the same record list twice leaves the sink exactly as one run
does. -/
lemma upsertAll_idem {K V : Type} [DecidableEq K] (rs : List (K × V))
    (tbl : K → Option V) :
    upsertAll rs (upsertAll rs tbl) = upsertAll rs tbl := by
  funext k
  rw [upsertAll_apply, upsertAll_apply, ← Option.or_assoc, Option.or_self]

/-- CLAIM C4: re-running the full pipeline on identical inputs and upserting
its (deterministically recomputed) AdjEM and VORP record sets a second time
produces exactly the sink state of the first run, for every starting sink
state. -/
theorem pipeline_upsert_idempotent (games : List Game) (rows : List ScoredRow)
    (ratingsTbl : String × String → Option RatingsPayload)
    (vorpTbl : String × String × String → Option VorpPayload) :
    upsertAll (ratingsRecords games) (upsertAll (ratingsRecords games) ratingsTbl)
      = upsertAll (ratingsRecords games) ratingsTbl ∧
    upsertAll (vorpRecords rows) (upsertAll (vorpRecords rows) vorpTbl)
      = upsertAll (vorpRecords rows) vorpTbl :=
  ⟨upsertAll_idem _ _, upsertAll_idem _ _⟩

/- ===== _game_weight: date parsing and recency weighting ===== -/

/-- A parsed calendar date (what datetime.strptime returns, at midnight). -/
structure PDate where
  year : ℕ
  month : ℕ
  day : ℕ
deriving DecidableEq

/-- Gregorian leap-year rule, as in the datetime module. -/
def isLeap (y : ℕ) : Bool := (y % 4 == 0 && y % 100 != 0) || y % 400 == 0

/-- Length of a month, as validated by datetime. -/
def daysInMonth (y m : ℕ) : ℕ :=
  if m = 2 then (if isLeap y then 29 else 28)
  else if m = 4 ∨ m = 6 ∨ m = 9 ∨ m = 11 then 30
  else 31

/-- Range validation performed by datetime.strptime (years from 1, months
1–12, days against the month length); None models the ValueError path. -/
def mkValidDate (y m d : ℕ) : Option PDate :=
  if 1 ≤ y ∧ 1 ≤ m ∧ m ≤ 12 ∧ 1 ≤ d ∧ d ≤ daysInMonth y m then some ⟨y, m, d⟩ else none

/-- Split a character list on a separator (each separator starts a new
group, as in a regex split on a literal). -/
def splitOnChar (sep : Char) : List Char → List (List Char)
  | [] => [[]]
  | c :: rest =>
    let r := splitOnChar sep rest
    if c = sep then [] :: r
    else
      match r with
      | [] => [[c]]
      | g :: gs => (c :: g) :: gs

/-- Numeric value of a digit string. -/
def digitsVal (cs : List Char) : ℕ := cs.foldl (fun a c => 10 * a + (c.toNat - 48)) 0

/-- Modelled from CPython strptime "%Y-%m-%d": exactly four year digits, one
or two month and day digits, literal dashes, calendar validation. -/
def parseFmtDash (s : String) : Option PDate :=
  match splitOnChar '-' s.toList with
  | [ys, ms, ds] =>
    if ys.length = 4 ∧ ys.all Char.isDigit ∧
       1 ≤ ms.length ∧ ms.length ≤ 2 ∧ ms.all Char.isDigit ∧
       1 ≤ ds.length ∧ ds.length ≤ 2 ∧ ds.all Char.isDigit
    then mkValidDate (digitsVal ys) (digitsVal ms) (digitsVal ds)
    else none
  | _ => none

/-- Modelled from CPython strptime "%Y%m%d" on standard zero-padded stamps:
eight digits read as 4+2+2, calendar validation. -/
def parseFmtCompact (s : String) : Option PDate :=
  let cs := s.toList
  if cs.length = 8 ∧ cs.all Char.isDigit
  then mkValidDate (digitsVal (cs.take 4)) (digitsVal ((cs.drop 4).take 2))
    (digitsVal (cs.drop 6))
  else none

/-- The two-format fallback loop of _game_weight: "%Y-%m-%d" first, then
"%Y%m%d", None when both raise. -/
def parseDate (s : String) : Option PDate :=
  match parseFmtDash s with
  | some d => some d
  | none => parseFmtCompact s

/-- Day number of a proleptic Gregorian date (the standard days-from-civil
computation), so that datetime subtraction in whole days is the difference
of day numbers. -/
def rataDie (dt : PDate) : ℤ :=
  let y : ℤ := if dt.month ≤ 2 then (dt.year : ℤ) - 1 else (dt.year : ℤ)
  let era : ℤ := (if 0 ≤ y then y else y - 399) / 400
  let yoe : ℤ := y - era * 400
  let mp : ℤ := ((dt.month : ℤ) + 9) % 12
  let doy : ℤ := (153 * mp + 2) / 5 + (dt.day : ℤ) - 1
  let doe : ℤ := yoe * 365 + yoe / 4 - yoe / 100 + doy
  era * 146097 + doe - 719468

/-- The numeric core of _game_weight once both dates parse: weight 0 for a
future game, otherwise max(0.5^(days/half_life), floor). -/
noncomputable def weightOfDays (days : ℤ) (half_life floor : ℝ) : ℝ :=
  if days < 0 then 0 else max ((1/2 : ℝ) ^ ((days : ℝ) / half_life)) floor

/-- The function _game_weight(game_date, prediction_date, half_life, floor):
days elapsed from the parsed dates, with the early return 1.0 when either
date fails to parse in both formats. -/
noncomputable def _game_weight (game_date prediction_date : String)
    (half_life floor : ℝ) : ℝ :=
  match parseDate game_date, parseDate prediction_date with
  | some gd, some pd => weightOfDays (rataDie pd - rataDie gd) half_life floor
  | _, _ => 1

/-- CLAIM C10: when either date string fails to parse in both accepted
formats, _game_weight returns exactly 1.0 for every half-life and floor. -/
theorem malformed_date_full_weight (g p : String) (hl fl : ℝ)
    (h : parseDate g = none ∨ parseDate p = none) :
    _game_weight g p hl fl = 1 := by
  rcases hg : parseDate g with _ | gd <;> rcases hp : parseDate p with _ | pd <;>
    simp_all [_game_weight]

/-- Witness for malformed_date_full_weight on a malformed game date. -/
theorem malformed_date_full_weight_witness :
    parseDate "not-a-date" = none ∧
    _game_weight "not-a-date" "2024-01-01" 30 (1/10) = 1 :=
  ⟨by decide,
   malformed_date_full_weight "not-a-date" "2024-01-01" 30 (1/10) (Or.inl (by decide))⟩

/-- np.mean over a list of reals. -/
noncomputable def meanR (l : List ℝ) : ℝ := l.sum / l.length

/-- Population variance over a list of reals. -/
noncomputable def varianceR (l : List ℝ) : ℝ :=
  ((l.map (fun x => (x - meanR l) ^ 2)).sum) / l.length

/-- The per-game recency-weight column for a list of game dates at a given
half-life, with the default floor 0.10. -/
noncomputable def weightsFor (dates : List String) (prediction : String) (hl : ℝ) :
    List ℝ :=
  dates.map (fun d => _game_weight d prediction hl (1/10))

/-- A game played on the prediction date has weight 1 at every half-life. -/
lemma c5_same_day (hl : ℝ) : _game_weight "2024-01-01" "2024-01-01" hl (1/10) = 1 := by
  have hp : parseDate "2024-01-01" = some ⟨2024, 1, 1⟩ := by decide
  simp only [_game_weight, hp, sub_self, weightOfDays]
  rw [if_neg (by norm_num)]
  rw [Int.cast_zero, zero_div, Real.rpow_zero]
  exact max_eq_left (by norm_num)

/-- CLAIM C5 counterexample: with two games dated exactly at the prediction
date, the per-game weight variance is 0 at half-life 30 and still 0 at
half-life 60 — it does not strictly decrease as the half-life grows. -/
theorem weight_variance_not_strictly_decreasing :
    (30:ℝ) < 60 ∧
    ¬ (varianceR (weightsFor ["2024-01-01", "2024-01-01"] "2024-01-01" 60) <
       varianceR (weightsFor ["2024-01-01", "2024-01-01"] "2024-01-01" 30)) := by
  refine ⟨by norm_num, ?_⟩
  have h30 := c5_same_day 30
  have h60 := c5_same_day 60
  simp only [weightsFor, List.map, h30, h60, varianceR, meanR, List.sum_cons,
    List.sum_nil, List.length]
  norm_num

/-- CLAIM C5 (amended): over any pair of date strings, enlarging the
half-life weakly increases every game's recency weight, and every weight is
at most 1 — so early-season games' influence moves (weakly, not strictly)
toward that of games at the prediction date, whose weight is pinned at 1. -/
theorem game_weight_monotone_in_half_life (g p : String) (fl h₁ h₂ : ℝ)
    (hh : 0 < h₁) (h12 : h₁ ≤ h₂) (hfl0 : 0 ≤ fl) (hfl1 : fl ≤ 1) :
    _game_weight g p h₁ fl ≤ _game_weight g p h₂ fl ∧ _game_weight g p h₂ fl ≤ 1 := by
  rcases hg : parseDate g with _ | gd
  · simp [_game_weight, hg]
  rcases hp : parseDate p with _ | pd
  · simp [_game_weight, hg, hp]
  simp only [_game_weight, hg, hp]
  by_cases hneg : rataDie pd - rataDie gd < 0
  · simp [weightOfDays, hneg]
  have hd0 : (0:ℝ) ≤ ((rataDie pd - rataDie gd : ℤ) : ℝ) := by
    exact_mod_cast not_lt.mp hneg
  have h2pos : 0 < h₂ := lt_of_lt_of_le hh h12
  simp only [weightOfDays, if_neg hneg]
  constructor
  · refine max_le_max ?_ le_rfl
    apply Real.rpow_le_rpow_of_exponent_ge (by norm_num) (by norm_num)
    gcongr
  · exact max_le (Real.rpow_le_one (by norm_num) (by norm_num)
      (div_nonneg hd0 h2pos.le)) hfl1

/-- Witness for game_weight_monotone_in_half_life at a 30-day-old game. -/
theorem game_weight_monotone_witness :
    _game_weight "2024-01-01" "2024-01-31" 30 (1/10) ≤
      _game_weight "2024-01-01" "2024-01-31" 60 (1/10) ∧
    _game_weight "2024-01-01" "2024-01-31" 60 (1/10) ≤ 1 :=
  game_weight_monotone_in_half_life "2024-01-01" "2024-01-31" (1/10) 30 60
    (by norm_num) (by norm_num) (by norm_num) (by norm_num)
